import Mathlib

/-!
Verification of the meal-plan engine of the AI-Powered-Dietitian-Service.

The Python source (`services/nutrition_calculator.py` and
`services/recommendation_engine.py`) is shallowly embedded below:
Python floats become exact rationals (`ℚ`), Python `round` becomes
round-half-to-even on rationals, Python lists become `List`, the
`random.random()` jitter and `random.choice` fallback become explicit
parameters, and `None`-able attributes become `Option`.
-/

namespace Dietitian

/-- Python's `str.lower()`, character by character (the strings appearing in
the engine are ASCII, where per-character lowering matches Python). -/
def pyLower (s : String) : String := ⟨s.data.map Char.toLower⟩

/-- Python's builtin `round` on a number: round half to even. -/
def pyRound (q : ℚ) : ℤ :=
  let n : ℤ := ⌊q⌋
  if q - n < 1/2 then n
  else if (1 : ℚ)/2 < q - n then n + 1
  else if n % 2 = 0 then n else n + 1

/-- Python's `round(x, 1)`: round to one decimal place, half to even. -/
def pyRound1 (q : ℚ) : ℚ := (pyRound (q * 10) : ℚ) / 10

/-- A meal record as the engine consumes it (database row or parsed fixture):
`name` may be absent (`None` in Python), `dietary_tags` and `ingredients`
are taken in their already-decoded list form. -/
structure Meal where
  id : Option ℤ
  name : Option String
  meal_type : String
  calories : ℚ
  protein : ℚ
  carbs : ℚ
  fat : ℚ
  dietary_tags : List String
  ingredients : List String
  deriving DecidableEq, Repr

/-- A macro-target dictionary `{'protein': _, 'carbs': _, 'fat': _}` of floats. -/
structure Macros where
  protein : ℚ
  carbs : ℚ
  fat : ℚ
  deriving DecidableEq, Repr

/-- The gram dictionary returned by `calculate_macros` (Python ints from `round`). -/
structure MacroGrams where
  protein : ℤ
  carbs : ℤ
  fat : ℤ
  deriving DecidableEq, Repr

namespace NutritionCalculator

/-- Embeds `NutritionCalculator.calculate_bmi` (`nutrition_calculator.py`, lines 14-19). -/
def calculate_bmi (height_cm weight_kg : ℚ) : ℚ :=
  let h_m := height_cm / 100
  if h_m ≤ 0 then 0 else weight_kg / (h_m * h_m)

/-- Embeds `NutritionCalculator.calculate_bmr` (`nutrition_calculator.py`, lines 21-26). -/
def calculate_bmr (age : ℤ) (height_cm weight_kg : ℚ) (gender : String) : ℚ :=
  if pyLower gender = "male" then
    10 * weight_kg + 6.25 * height_cm - 5 * (age : ℚ) + 5
  else
    10 * weight_kg + 6.25 * height_cm - 5 * (age : ℚ) - 161

/-- Embeds `NutritionCalculator.calculate_tdee` (`nutrition_calculator.py`, lines 28-39). -/
def calculate_tdee (bmr : ℚ) (activity_level : String) : ℚ :=
  let mult : ℚ :=
    if activity_level = "sedentary" then 1.2
    else if activity_level = "lightly_active" then 1.375
    else if activity_level = "moderately_active" then 1.55
    else if activity_level = "very_active" then 1.725
    else if activity_level = "extremely_active" then 1.9
    else 1.2
  bmr * mult

/-- Embeds `NutritionCalculator.calculate_target_calories` (`nutrition_calculator.py`, lines 41-50). -/
def calculate_target_calories (tdee : ℚ) (health_goal : String) : ℚ :=
  if health_goal = "weight_loss" then max 1200 (tdee - 500)
  else if health_goal = "muscle_gain" then tdee + 300
  else tdee

/-- Embeds `NutritionCalculator.calculate_macros` (`nutrition_calculator.py`, lines 52-68). -/
def calculate_macros (target_calories : ℚ) (dietary_preference : String) : MacroGrams :=
  let rp : ℚ := if dietary_preference = "keto" then 0.3
    else if dietary_preference = "high-protein" then 0.4 else 0.3
  let rc : ℚ := if dietary_preference = "keto" then 0.1
    else if dietary_preference = "high-protein" then 0.3 else 0.4
  let rf : ℚ := if dietary_preference = "keto" then 0.6
    else if dietary_preference = "high-protein" then 0.3 else 0.3
  { protein := pyRound (target_calories * rp / 4)
  , carbs := pyRound (target_calories * rc / 4)
  , fat := pyRound (target_calories * rf / 9) }

end NutritionCalculator

namespace RecommendationEngine

/-- Embeds `RecommendationEngine.calculate_bmi` (`recommendation_engine.py`, lines 28-41). -/
def calculate_bmi (height_cm weight_kg : ℚ) : ℚ :=
  let h_m := height_cm / 100
  if h_m ≤ 0 then 0 else weight_kg / (h_m * h_m)

/-- Embeds `RecommendationEngine.calculate_bmr` (`recommendation_engine.py`, lines 43-58). -/
def calculate_bmr (age : ℤ) (height_cm weight_kg : ℚ) (gender : String) : ℚ :=
  if pyLower gender = "male" then
    10 * weight_kg + 6.25 * height_cm - 5 * (age : ℚ) + 5
  else
    10 * weight_kg + 6.25 * height_cm - 5 * (age : ℚ) - 161

/-- Embeds `RecommendationEngine.calculate_tdee` (`recommendation_engine.py`, lines 60-79). -/
def calculate_tdee (bmr : ℚ) (activity_level : String) : ℚ :=
  let mult : ℚ :=
    if activity_level = "sedentary" then 1.2
    else if activity_level = "lightly_active" then 1.375
    else if activity_level = "moderately_active" then 1.55
    else if activity_level = "very_active" then 1.725
    else if activity_level = "extremely_active" then 1.9
    else 1.2
  bmr * mult

/-- Embeds `RecommendationEngine.calculate_target_calories` (`recommendation_engine.py`, lines 81-98). -/
def calculate_target_calories (tdee : ℚ) (health_goal : String) : ℚ :=
  if health_goal = "weight_loss" then max 1200 (tdee - 500)
  else if health_goal = "muscle_gain" then tdee + 300
  else tdee

/-- Embeds `RecommendationEngine.calculate_macros` (`recommendation_engine.py`, lines 100-121). -/
def calculate_macros (target_calories : ℚ) (dietary_preference : String) : MacroGrams :=
  let rp : ℚ := if dietary_preference = "keto" then 0.3
    else if dietary_preference = "high-protein" then 0.4 else 0.3
  let rc : ℚ := if dietary_preference = "keto" then 0.1
    else if dietary_preference = "high-protein" then 0.3 else 0.4
  let rf : ℚ := if dietary_preference = "keto" then 0.6
    else if dietary_preference = "high-protein" then 0.3 else 0.3
  { protein := pyRound (target_calories * rp / 4)
  , carbs := pyRound (target_calories * rc / 4)
  , fat := pyRound (target_calories * rf / 9) }

end RecommendationEngine

/-- C9: the five duplicated calculator methods return the same value in
`NutritionCalculator` as in `RecommendationEngine`, for every input. -/
theorem C9_duplicate_calculators_agree :
    (∀ h w : ℚ, NutritionCalculator.calculate_bmi h w = RecommendationEngine.calculate_bmi h w) ∧
    (∀ (a : ℤ) (h w : ℚ) (g : String),
      NutritionCalculator.calculate_bmr a h w g = RecommendationEngine.calculate_bmr a h w g) ∧
    (∀ (b : ℚ) (lvl : String),
      NutritionCalculator.calculate_tdee b lvl = RecommendationEngine.calculate_tdee b lvl) ∧
    (∀ (t : ℚ) (goal : String),
      NutritionCalculator.calculate_target_calories t goal
        = RecommendationEngine.calculate_target_calories t goal) ∧
    (∀ (t : ℚ) (pref : String),
      NutritionCalculator.calculate_macros t pref = RecommendationEngine.calculate_macros t pref) :=
  ⟨fun _ _ => rfl, fun _ _ _ _ => rfl, fun _ _ => rfl, fun _ _ => rfl, fun _ _ => rfl⟩

/-- Evaluation of the default-branch macros at the C3 scenario target. -/
theorem macros_at_2633 :
    RecommendationEngine.calculate_macros 2633.0625 "balanced"
      = { protein := 197, carbs := 263, fat := 88 } := by
  show MacroGrams.mk (pyRound (2633.0625 * 0.3 / 4)) (pyRound (2633.0625 * 0.4 / 4))
      (pyRound (2633.0625 * 0.3 / 9)) = _
  have hp : pyRound (2633.0625 * 0.3 / 4) = 197 := by norm_num [pyRound]
  have hc : pyRound (2633.0625 * 0.4 / 4) = 263 := by norm_num [pyRound]
  have hf : pyRound (2633.0625 * 0.3 / 9) = 88 := by norm_num [pyRound]
  rw [hp, hc, hf]

/-- C3 counterexample: on the profile age 30, height 175, weight 75, male,
moderately active, maintain, balanced, the claimed protein of 198 g is wrong:
`calculate_macros` rounds 2633.0625·0.3/4 = 197.4796875 to 197 g. -/
theorem C3_counterexample :
    ¬(RecommendationEngine.calculate_bmr 30 175 75 "male" = 1698.75 ∧
      RecommendationEngine.calculate_tdee 1698.75 "moderately_active" = 2633.0625 ∧
      RecommendationEngine.calculate_target_calories 2633.0625 "maintain" = 2633.0625 ∧
      RecommendationEngine.calculate_macros 2633.0625 "balanced"
        = { protein := 198, carbs := 263, fat := 88 }) := by
  intro h
  rw [macros_at_2633] at *
  have := h.2.2.2
  simp only [MacroGrams.mk.injEq] at this
  omega

/-- C3 amended: same profile, but the protein target is 197 g (not 198 g):
bmr = 1698.75, tdee = 2633.0625, target calories unchanged, and macros
protein 197 g, carbs 263 g, fat 88 g. -/
theorem C3_scenario_amended :
    RecommendationEngine.calculate_bmr 30 175 75 "male" = 1698.75 ∧
    RecommendationEngine.calculate_tdee 1698.75 "moderately_active" = 2633.0625 ∧
    RecommendationEngine.calculate_target_calories 2633.0625 "maintain" = 2633.0625 ∧
    RecommendationEngine.calculate_macros 2633.0625 "balanced"
      = { protein := 197, carbs := 263, fat := 88 } := by
  have hg : pyLower "male" = "male" := by decide
  refine ⟨?_, ?_, ?_, macros_at_2633⟩
  · simp only [RecommendationEngine.calculate_bmr, hg, if_pos]
    norm_num
  · simp [RecommendationEngine.calculate_tdee] <;> norm_num
  · simp [RecommendationEngine.calculate_target_calories]

/-- Here `leadsList l p` means: the char list `l` starts with `p`. -/
def leadsList : List Char → List Char → Bool
  | _, [] => true
  | [], _ :: _ => false
  | a :: as, b :: bs => a == b && leadsList as bs

/-- Here `hasSubList l p` means `p` occurs contiguously inside `l`. -/
def hasSubList : List Char → List Char → Bool
  | [], p => leadsList [] p
  | a :: as, p => leadsList (a :: as) p || hasSubList as p

/-- Python's `sub in s` on strings: `sub` is a contiguous substring of `s`.
This is the semantics the docstring of `filter_meals_by_preference` describes
for allergy terms ("list of ingredient substrings to exclude"). -/
def strHasSub (s sub : String) : Bool := hasSubList s.data sub.data

namespace RecommendationEngine

/-- The per-meal test of `RecommendationEngine.filter_meals_by_preference`
(`recommendation_engine.py`, lines 137-170), for meals whose tags and
ingredients are already lists. The meal is kept iff it is not skipped by the
tag `continue` (line 164-166: skipped when the preference is truthy, not
`'none'`, not in the lowercased tags, and not `'high-protein'`) nor by the
allergy `continue` (line 167-169: note `a.lower() in (ing for ing in
ingredients)` is generator membership, i.e. equality against each lowercased
ingredient, not a substring test). -/
def meal_passes_filter (dietary_preference : String) (allergies : List String) (m : Meal) : Bool :=
  let tags := m.dietary_tags.map pyLower
  let ingredients := m.ingredients.map pyLower
  (decide (dietary_preference = "") || decide (dietary_preference = "none")
      || tags.contains dietary_preference || decide (dietary_preference = "high-protein"))
    && !(allergies.any (fun a => ingredients.contains (pyLower a)))

/-- Embeds `RecommendationEngine.filter_meals_by_preference` (lines 124-172). -/
def filter_meals_by_preference (all_meals : List Meal) (dietary_preference : String)
    (allergies : List String) : List Meal :=
  all_meals.filter (meal_passes_filter dietary_preference allergies)

end RecommendationEngine

/-- A meal whose ingredient "peanut butter" contains the allergy term
"peanut" strictly as a substring, never as a whole ingredient string. -/
def peanutButterMeal : Meal :=
  { id := some 1, name := some "PB Toast", meal_type := "breakfast"
  , calories := 350, protein := 12, carbs := 40, fat := 16
  , dietary_tags := [], ingredients := ["peanut butter", "bread"] }

/-- C1: the allergy check of `filter_meals_by_preference` tests the lowercased
allergy term for equality with each lowercased ingredient (membership in the
generator `(ing for ing in ingredients)`), not for substring occurrence, so a
meal with ingredient "peanut butter" is kept under allergy "peanut" even
though "peanut" occurs in it as a substring — contradicting both the spec and
the function's own docstring ("list of ingredient substrings to exclude"). -/
theorem C1_allergy_substring_bug :
    strHasSub "peanut butter" "peanut" = true ∧
    RecommendationEngine.filter_meals_by_preference [peanutButterMeal] "none" ["peanut"]
      = [peanutButterMeal] :=
  ⟨by decide, by decide⟩

/-- A meal carrying the lowercase tag "vegan". -/
def veganTaggedMeal : Meal :=
  { id := some 2, name := some "Tofu Bowl", meal_type := "lunch"
  , calories := 500, protein := 20, carbs := 60, fat := 18
  , dietary_tags := ["vegan"], ingredients := ["tofu"] }

/-- C2 counterexample: preference "Vegan" does not match a meal tagged
"vegan", although the tag set contains the preference case-insensitively:
the filter lowercases tags but not the preference, so the meal is dropped. -/
theorem C2_counterexample :
    (veganTaggedMeal.dietary_tags.map pyLower).contains (pyLower "Vegan") = true ∧
    RecommendationEngine.filter_meals_by_preference [veganTaggedMeal] "Vegan" [] = [] :=
  ⟨by decide, by decide⟩

/-- C2 amended: for every meal and preference outside
{"", "none", "high-protein"}, the meal passes the filter (with no allergies)
iff the verbatim preference string is a member of the meal's lowercased tag
list: tag case is ignored, but the preference's case is significant, so only
an already-lowercase preference can match. -/
theorem C2_tag_check_amended (m : Meal) (pref : String)
    (h1 : pref ≠ "") (h2 : pref ≠ "none") (h3 : pref ≠ "high-protein") :
    RecommendationEngine.filter_meals_by_preference [m] pref [] = [m]
      ↔ (m.dietary_tags.map pyLower).contains pref = true := by
  have e1 : decide (pref = "") = false := decide_eq_false h1
  have e2 : decide (pref = "none") = false := decide_eq_false h2
  have e3 : decide (pref = "high-protein") = false := decide_eq_false h3
  have key : RecommendationEngine.meal_passes_filter pref [] m
      = (m.dietary_tags.map pyLower).contains pref := by
    simp only [RecommendationEngine.meal_passes_filter, e1, e2, e3, Bool.false_or,
      Bool.or_false, List.any_nil, Bool.not_false, Bool.and_true]
  simp only [RecommendationEngine.filter_meals_by_preference, List.filter_cons,
    List.filter_nil, key]
  cases hc : (m.dietary_tags.map pyLower).contains pref
  · simp [hc]
  · simp [hc]

/-- Witness for the amended C2: the lowercase preference "vegan" matches the
meal tagged "vegan", through the amended equivalence. -/
theorem C2_tag_check_amended_witness :
    RecommendationEngine.filter_meals_by_preference [veganTaggedMeal] "vegan" []
      = [veganTaggedMeal] :=
  (C2_tag_check_amended veganTaggedMeal "vegan" (by decide) (by decide) (by decide)).mpr
    (by decide)

namespace RecommendationEngine

/-- Embeds `RecommendationEngine.score_meal` (`recommendation_engine.py`, lines
174-216); the `random.random()` tie-break value is the explicit `jitter`
parameter. -/
def score_meal (meal : Meal) (target_calories_per_meal : ℚ) (target_macros_per_meal : Macros)
    (dietary_preference : String) (jitter : ℚ) : ℚ :=
  let cal_diff := |meal.calories - target_calories_per_meal|
  let cal_score := max 0 (30 - cal_diff / max 1 target_calories_per_meal * 30)
  let protein_weight : ℚ := if dietary_preference = "high-protein" then 3 else 1
  let carb_weight : ℚ := if dietary_preference = "high-protein" then 0.5 else 1
  let protein_bonus : ℚ :=
    if dietary_preference = "high-protein" then
      let protein_pct := meal.protein * 4 / max 1 meal.calories
      if protein_pct ≥ 0.35 then 20 else if protein_pct ≥ 0.30 then 10 else 0
    else 0
  let p_diff := |meal.protein - target_macros_per_meal.protein| * protein_weight
  let c_diff := |meal.carbs - target_macros_per_meal.carbs| * carb_weight
  let f_diff := |meal.fat - target_macros_per_meal.fat|
  let denom := target_macros_per_meal.protein * protein_weight
    + target_macros_per_meal.carbs * carb_weight + max 1 target_macros_per_meal.fat
  let macro_penalty := (p_diff + c_diff + f_diff) / denom
  let macro_score := max 0 (50 - macro_penalty * 50) + protein_bonus
  cal_score + macro_score + jitter

/-- The protein-calorie density `protein_pct` of the high-protein branch of
`score_meal` (line 198). -/
def proteinDensity (m : Meal) : ℚ := m.protein * 4 / max 1 m.calories

/-- The protein-density bonus of the high-protein branch of `score_meal`
(line 199). -/
def hpBonus (m : Meal) : ℚ :=
  if proteinDensity m ≥ 0.35 then 20 else if proteinDensity m ≥ 0.30 then 10 else 0

/-- The deterministic bonus-free part of the high-protein score: calorie
proximity plus the macro proximity term with protein deviation weighted 3,
carbs deviation weighted 0.5 and fat unweighted, the same weights appearing
in the normalizing denominator. -/
def hpScoreBase (m : Meal) (tc : ℚ) (tm : Macros) : ℚ :=
  max 0 (30 - |m.calories - tc| / max 1 tc * 30)
    + max 0 (50 -
        (|m.protein - tm.protein| * 3 + |m.carbs - tm.carbs| * 0.5 + |m.fat - tm.fat|)
          / (tm.protein * 3 + tm.carbs * 0.5 + max 1 tm.fat) * 50)

/-- Decomposition of the high-protein score into weighted base, density bonus
and jitter. -/
theorem score_meal_hp_decomp (m : Meal) (tc : ℚ) (tm : Macros) (j : ℚ) :
    score_meal m tc tm "high-protein" j = hpScoreBase m tc tm + hpBonus m + j := by
  simp only [score_meal, hpScoreBase, hpBonus, proteinDensity, eq_self_iff_true, if_true]
  ring

end RecommendationEngine

/-- C4: with preference "high-protein", `score_meal` equals the weighted base
(protein deviation ×3, carbs deviation ×0.5, fat unweighted, same weights in
the normalizing denominator) plus the protein-density bonus (20 when
`protein·4/max(1,calories) ≥ 0.35`, 10 when `≥ 0.30`, else 0) plus the
jitter; two meals with equal weighted base on opposite sides of the 0.35 and
0.30 thresholds differ by exactly 20 net of the jitter terms. -/
theorem C4_high_protein_scoring :
    (∀ (m : Meal) (tc : ℚ) (tm : Macros) (j : ℚ),
      RecommendationEngine.score_meal m tc tm "high-protein" j
        = RecommendationEngine.hpScoreBase m tc tm + RecommendationEngine.hpBonus m + j) ∧
    (∀ (m1 m2 : Meal) (tc : ℚ) (tm : Macros) (j1 j2 : ℚ),
      RecommendationEngine.proteinDensity m1 ≥ 0.35 →
      RecommendationEngine.proteinDensity m2 < 0.30 →
      RecommendationEngine.hpScoreBase m1 tc tm = RecommendationEngine.hpScoreBase m2 tc tm →
      RecommendationEngine.score_meal m1 tc tm "high-protein" j1
        - RecommendationEngine.score_meal m2 tc tm "high-protein" j2 = 20 + (j1 - j2)) := by
  refine ⟨RecommendationEngine.score_meal_hp_decomp, ?_⟩
  intro m1 m2 tc tm j1 j2 h1 h2 hbase
  rw [RecommendationEngine.score_meal_hp_decomp, RecommendationEngine.score_meal_hp_decomp]
  have b1 : RecommendationEngine.hpBonus m1 = 20 := if_pos h1
  have b2 : RecommendationEngine.hpBonus m2 = 0 := by
    rw [RecommendationEngine.hpBonus, if_neg, if_neg]
    · exact not_le.mpr h2
    · exact not_le.mpr (lt_trans h2 (by norm_num))
  rw [b1, b2, hbase]
  ring

/-- High-density witness meal: 40 g protein on 400 kcal, density 0.4. -/
def hpMealHigh : Meal :=
  { id := none, name := some "H", meal_type := "lunch"
  , calories := 400, protein := 40, carbs := 40, fat := 10
  , dietary_tags := [], ingredients := [] }

/-- Low-density witness meal: 29 g protein on 400 kcal, density 0.29; its
protein deviation from the 34.5 g target matches `hpMealHigh`'s. -/
def hpMealLow : Meal :=
  { id := none, name := some "L", meal_type := "lunch"
  , calories := 400, protein := 29, carbs := 40, fat := 10
  , dietary_tags := [], ingredients := [] }

/-- Witness for C4: at the slot budget 400 kcal / 34.5-40-10 g the two
witness meals have equal weighted base, and their scores (zero jitter)
differ by exactly 20. -/
theorem C4_high_protein_scoring_witness :
    RecommendationEngine.score_meal hpMealHigh 400 ⟨34.5, 40, 10⟩ "high-protein" 0
      - RecommendationEngine.score_meal hpMealLow 400 ⟨34.5, 40, 10⟩ "high-protein" 0
      = 20 + ((0 : ℚ) - 0) :=
  C4_high_protein_scoring.2 hpMealHigh hpMealLow 400 ⟨34.5, 40, 10⟩ 0 0
    (by norm_num [RecommendationEngine.proteinDensity, hpMealHigh, max_def])
    (by norm_num [RecommendationEngine.proteinDensity, hpMealLow, max_def])
    (by norm_num [RecommendationEngine.hpScoreBase, hpMealHigh, hpMealLow, max_def,
      abs_of_nonneg, abs_of_nonpos])

/-- The user profile fields consumed by the plan generators; `allergies` is
taken after the `json.loads` step (decode failures degrade to `[]`). -/
structure UserProfile where
  target_calories : ℚ
  target_protein : ℚ
  target_carbs : ℚ
  target_fat : ℚ
  dietary_preference : String
  allergies : List String
  deriving DecidableEq, Repr

/-- One slot's entry in a plan dictionary (lines 274-283): nutrition fields
rounded to one decimal. The `date` and `day_of_week` fields are environment
time and are not modeled. -/
structure SlotEntry where
  id : Option ℤ
  name : Option String
  meal_type : String
  calories : ℚ
  protein : ℚ
  carbs : ℚ
  fat : ℚ
  ingredients : List String
  deriving DecidableEq, Repr

/-- The `daily_totals` dictionary. -/
structure Totals where
  calories : ℚ
  protein : ℚ
  carbs : ℚ
  fat : ℚ
  deriving DecidableEq, Repr

/-- A day's plan: the filled slots keyed by meal type in insertion order
(a Python dict), plus the rounded totals. -/
structure DailyPlan where
  slots : List (String × SlotEntry)
  daily_totals : Totals
  deriving DecidableEq, Repr

namespace RecommendationEngine

/-- Python's `max(candidates, key=f)`: the first maximal element (ties keep
the earlier element); `none` on an empty list. -/
def argmaxBy (f : Meal → ℚ) : List Meal → Option Meal
  | [] => none
  | m :: ms => some (ms.foldl (fun best x => if f x > f best then x else best) m)

/-- Embeds `RecommendationEngine.select_best_meal` (lines 218-237); `jit` supplies
the `random.random()` jitter drawn inside each `score_meal` call. -/
def select_best_meal (meals_pool : List Meal) (meal_type : String) (target_calories : ℚ)
    (target_macros : Macros) (dietary_preference : String) (jit : Meal → ℚ) : Option Meal :=
  let candidates := meals_pool.filter (fun m => decide (m.meal_type = meal_type))
  argmaxBy (fun m => score_meal m target_calories target_macros dietary_preference (jit m))
    candidates

/-- The four slot types in generation order (line 265). -/
def daySlots : List String := ["breakfast", "lunch", "dinner", "snack"]

/-- Per-slot share of the daily budget (line 253). -/
def slotWeight : String → ℚ
  | "breakfast" => 0.25
  | "lunch" => 0.35
  | "dinner" => 0.35
  | "snack" => 0.05
  | _ => 0

/-- The macro budget of a slot (line 267). -/
def slotMacros (profile : UserProfile) (mtype : String) : Macros :=
  ⟨profile.target_protein * slotWeight mtype, profile.target_carbs * slotWeight mtype,
    profile.target_fat * slotWeight mtype⟩

/-- The slot dictionary built from a selected meal (lines 274-283). -/
def mealToEntry (m : Meal) : SlotEntry :=
  { id := m.id, name := m.name, meal_type := m.meal_type
  , calories := pyRound1 m.calories, protein := pyRound1 m.protein
  , carbs := pyRound1 m.carbs, fat := pyRound1 m.fat, ingredients := m.ingredients }

/-- One slot of `generate_daily_meal_plan` (lines 266-273): scored selection
from the filtered pool, then `random.choice` fallback (modeled by the index
`choose`, reduced modulo the candidate count) among all meals of the type in
the unfiltered pool; `none` when even the fallback set is empty. -/
def daily_slot_selection (profile : UserProfile) (all_meals pool : List Meal) (mtype : String)
    (jit : Meal → ℚ) (choose : ℕ) : Option Meal :=
  match select_best_meal pool mtype (profile.target_calories * slotWeight mtype)
      (slotMacros profile mtype) profile.dietary_preference jit with
  | some sel => some sel
  | none =>
    let candidates := all_meals.filter (fun m => decide (m.meal_type = mtype))
    candidates.get? (choose % candidates.length)

/-- The slot loop of `generate_daily_meal_plan` (lines 265-287), accumulating
the plan dictionary and the raw running totals. -/
def daily_loop (profile : UserProfile) (all_meals pool : List Meal) (jit : String → Meal → ℚ)
    (choose : String → ℕ) :
    List String → List (String × SlotEntry) → Totals → List (String × SlotEntry) × Totals
  | [], acc, tot => (acc, tot)
  | t :: ts, acc, tot =>
    match daily_slot_selection profile all_meals pool t (jit t) (choose t) with
    | none => daily_loop profile all_meals pool jit choose ts acc tot
    | some sel =>
      daily_loop profile all_meals pool jit choose ts (acc ++ [(t, mealToEntry sel)])
        ⟨tot.calories + sel.calories, tot.protein + sel.protein,
          tot.carbs + sel.carbs, tot.fat + sel.fat⟩

/-- Embeds `RecommendationEngine.generate_daily_meal_plan` (lines 239-300): filter
the pool once, fill the four slots in order, round the accumulated totals to
one decimal. -/
def generate_daily_meal_plan (profile : UserProfile) (all_meals : List Meal)
    (jit : String → Meal → ℚ) (choose : String → ℕ) : DailyPlan :=
  let pool := filter_meals_by_preference all_meals profile.dietary_preference profile.allergies
  let r := daily_loop profile all_meals pool jit choose daySlots [] ⟨0, 0, 0, 0⟩
  { slots := r.1
  , daily_totals := ⟨pyRound1 r.2.calories, pyRound1 r.2.protein, pyRound1 r.2.carbs,
      pyRound1 r.2.fat⟩ }

/-- The slot assignments (slot name, selected meal) the daily generator makes
over a given slot list. -/
def slotAssignments (profile : UserProfile) (all_meals pool : List Meal)
    (jit : String → Meal → ℚ) (choose : String → ℕ) (ts : List String) :
    List (String × Meal) :=
  ts.filterMap (fun t =>
    (daily_slot_selection profile all_meals pool t (jit t) (choose t)).map (fun m => (t, m)))

/-- The meals the daily generator assigns, in slot order. -/
def dailySelections (profile : UserProfile) (all_meals : List Meal) (jit : String → Meal → ℚ)
    (choose : String → ℕ) : List Meal :=
  let pool := filter_meals_by_preference all_meals profile.dietary_preference profile.allergies
  daySlots.filterMap (fun t => daily_slot_selection profile all_meals pool t (jit t) (choose t))

/-- Unrolling the slot loop: the plan rows are the slot assignments in order
and the totals accumulate the assigned meals' raw nutrition values. -/
theorem daily_loop_unroll (profile : UserProfile) (all_meals pool : List Meal)
    (jit : String → Meal → ℚ) (choose : String → ℕ) :
    ∀ (ts : List String) (acc : List (String × SlotEntry)) (tot : Totals),
      (daily_loop profile all_meals pool jit choose ts acc tot).1
          = acc ++ (slotAssignments profile all_meals pool jit choose ts).map
              (fun p => (p.1, mealToEntry p.2)) ∧
      (daily_loop profile all_meals pool jit choose ts acc tot).2
          = ⟨tot.calories
                + ((slotAssignments profile all_meals pool jit choose ts).map
                    (fun p => p.2.calories)).sum,
              tot.protein
                + ((slotAssignments profile all_meals pool jit choose ts).map
                    (fun p => p.2.protein)).sum,
              tot.carbs
                + ((slotAssignments profile all_meals pool jit choose ts).map
                    (fun p => p.2.carbs)).sum,
              tot.fat
                + ((slotAssignments profile all_meals pool jit choose ts).map
                    (fun p => p.2.fat)).sum⟩ := by
  intro ts
  induction ts with
  | nil => intro acc tot; simp [daily_loop, slotAssignments]
  | cons t ts ih =>
    intro acc tot
    cases hsel : daily_slot_selection profile all_meals pool t (jit t) (choose t) with
    | none =>
      simp only [daily_loop, hsel, slotAssignments, List.filterMap_cons, Option.map_none']
      have h := ih acc tot
      simpa [slotAssignments] using h
    | some sel =>
      simp only [daily_loop, hsel, slotAssignments, List.filterMap_cons, Option.map_some']
      have h := ih (acc ++ [(t, mealToEntry sel)])
        ⟨tot.calories + sel.calories, tot.protein + sel.protein,
          tot.carbs + sel.carbs, tot.fat + sel.fat⟩
      refine ⟨?_, ?_⟩
      · rw [h.1]
        simp [slotAssignments]
      · rw [h.2]
        simp [slotAssignments, Totals.mk.injEq]
        refine ⟨by ring, by ring, by ring, by ring⟩

/-- The assigned meals are the second components of the slot assignments. -/
theorem slotAssignments_snd (profile : UserProfile) (all_meals pool : List Meal)
    (jit : String → Meal → ℚ) (choose : String → ℕ) :
    ∀ ts : List String,
      (slotAssignments profile all_meals pool jit choose ts).map Prod.snd
        = ts.filterMap (fun t => daily_slot_selection profile all_meals pool t (jit t) (choose t))
  | [] => by simp [slotAssignments]
  | t :: ts => by
    cases hsel : daily_slot_selection profile all_meals pool t (jit t) (choose t) with
    | none =>
      simp only [slotAssignments, List.filterMap_cons, hsel, Option.map_none']
      exact slotAssignments_snd profile all_meals pool jit choose ts
    | some sel =>
      simp only [slotAssignments, List.filterMap_cons, hsel, Option.map_some', List.map_cons]
      have ih := slotAssignments_snd profile all_meals pool jit choose ts
      simp only [slotAssignments] at ih
      rw [ih]

end RecommendationEngine

/-- C5: `daily_totals` equals, field by field, the raw nutrition sum of the
assigned meals over exactly the filled slots, rounded to one decimal; each
filled slot contributes exactly one assigned meal (no double counting, no
renormalization), and omitted slots contribute nothing. -/
theorem C5_daily_totals_exact (profile : UserProfile) (all_meals : List Meal)
    (jit : String → Meal → ℚ) (choose : String → ℕ) :
    (RecommendationEngine.generate_daily_meal_plan profile all_meals jit choose).daily_totals
        = ⟨pyRound1 (((RecommendationEngine.dailySelections profile all_meals jit choose).map
              Meal.calories).sum),
            pyRound1 (((RecommendationEngine.dailySelections profile all_meals jit choose).map
              Meal.protein).sum),
            pyRound1 (((RecommendationEngine.dailySelections profile all_meals jit choose).map
              Meal.carbs).sum),
            pyRound1 (((RecommendationEngine.dailySelections profile all_meals jit choose).map
              Meal.fat).sum)⟩ ∧
    (RecommendationEngine.generate_daily_meal_plan profile all_meals jit choose).slots.length
        = (RecommendationEngine.dailySelections profile all_meals jit choose).length := by
  have hu := RecommendationEngine.daily_loop_unroll profile all_meals
    (RecommendationEngine.filter_meals_by_preference all_meals profile.dietary_preference
      profile.allergies) jit choose RecommendationEngine.daySlots [] ⟨0, 0, 0, 0⟩
  have hsnd := RecommendationEngine.slotAssignments_snd profile all_meals
    (RecommendationEngine.filter_meals_by_preference all_meals profile.dietary_preference
      profile.allergies) jit choose RecommendationEngine.daySlots
  constructor
  · show Totals.mk _ _ _ _ = _
    rw [hu.2]
    have hc : ∀ f : Meal → ℚ,
        ((RecommendationEngine.slotAssignments profile all_meals
            (RecommendationEngine.filter_meals_by_preference all_meals
              profile.dietary_preference profile.allergies) jit choose
            RecommendationEngine.daySlots).map (fun p => f p.2)).sum
          = ((RecommendationEngine.dailySelections profile all_meals jit choose).map f).sum := by
      intro f
      rw [RecommendationEngine.dailySelections, ← hsnd, List.map_map]
      rfl
    simp only [Totals.mk.injEq]
    exact ⟨by rw [hc Meal.calories]; ring_nf, by rw [hc Meal.protein]; ring_nf,
      by rw [hc Meal.carbs]; ring_nf, by rw [hc Meal.fat]; ring_nf⟩
  · show (RecommendationEngine.daily_loop _ _ _ _ _ _ _ _).1.length = _
    rw [hu.1]
    rw [RecommendationEngine.dailySelections, ← hsnd]
    simp

namespace RecommendationEngine

/-- The function `argmaxBy` returns `none` exactly on the empty list. -/
theorem argmaxBy_eq_none (f : Meal → ℚ) : ∀ l : List Meal, argmaxBy f l = none ↔ l = []
  | [] => by simp [argmaxBy]
  | m :: ms => by simp [argmaxBy]

/-- A slot whose selection is `none` never appears in the accumulated plan. -/
theorem daily_loop_not_mem (profile : UserProfile) (all_meals pool : List Meal)
    (jit : String → Meal → ℚ) (choose : String → ℕ) (t : String)
    (hsel : daily_slot_selection profile all_meals pool t (jit t) (choose t) = none) :
    ∀ (ts : List String) (acc : List (String × SlotEntry)) (tot : Totals),
      (∀ e, (t, e) ∉ acc) →
      ∀ e, (t, e) ∉ (daily_loop profile all_meals pool jit choose ts acc tot).1
  | [], acc, tot, hacc => by simpa [daily_loop] using hacc
  | t0 :: ts, acc, tot, hacc => by
    cases h0 : daily_slot_selection profile all_meals pool t0 (jit t0) (choose t0) with
    | none =>
      simp only [daily_loop, h0]
      exact daily_loop_not_mem profile all_meals pool jit choose t hsel ts acc tot hacc
    | some sel =>
      simp only [daily_loop, h0]
      refine daily_loop_not_mem profile all_meals pool jit choose t hsel ts _ _ ?_
      intro e he
      rcases List.mem_append.mp he with h | h
      · exact hacc e h
      · have hte : t = t0 ∧ e = mealToEntry sel := by simpa using h
        rw [← hte.1, hsel] at h0
        exact Option.noConfusion h0

end RecommendationEngine

/-- A profile with no active preference and no allergies. -/
def sampleProfile : UserProfile :=
  { target_calories := 2000, target_protein := 120, target_carbs := 200, target_fat := 80
  , dietary_preference := "none", allergies := [] }

/-- C8: `select_best_meal` returns `none` exactly when the pool has no meal
of the requested type; the daily generator then falls back to a
`random.choice` pick among all meals of that type in the unfiltered pool;
when that set is also empty the slot key is absent from the plan; and the
empty pool yields a normally-returned plan with zero slots and zeroed
totals. -/
theorem C8_selector_none_and_fallback :
    (∀ (pool : List Meal) (t : String) (tc : ℚ) (tm : Macros) (pref : String)
        (jit : Meal → ℚ),
      RecommendationEngine.select_best_meal pool t tc tm pref jit = none
        ↔ pool.filter (fun m => decide (m.meal_type = t)) = []) ∧
    (∀ (profile : UserProfile) (all_meals pool : List Meal) (t : String) (jit : Meal → ℚ)
        (choose : ℕ),
      pool.filter (fun m => decide (m.meal_type = t)) = [] →
      all_meals.filter (fun m => decide (m.meal_type = t)) ≠ [] →
      ∃ m, RecommendationEngine.daily_slot_selection profile all_meals pool t jit choose
          = some m
        ∧ m ∈ all_meals.filter (fun m => decide (m.meal_type = t))) ∧
    (∀ (profile : UserProfile) (all_meals pool : List Meal) (t : String) (jit : Meal → ℚ)
        (choose : ℕ),
      pool.filter (fun m => decide (m.meal_type = t)) = [] →
      all_meals.filter (fun m => decide (m.meal_type = t)) = [] →
      RecommendationEngine.daily_slot_selection profile all_meals pool t jit choose = none) ∧
    (∀ (profile : UserProfile) (all_meals : List Meal) (jit : String → Meal → ℚ)
        (choose : String → ℕ) (t : String),
      RecommendationEngine.daily_slot_selection profile all_meals
          (RecommendationEngine.filter_meals_by_preference all_meals
            profile.dietary_preference profile.allergies) t (jit t) (choose t) = none →
      ∀ e, (t, e)
        ∉ (RecommendationEngine.generate_daily_meal_plan profile all_meals jit choose).slots) ∧
    (∀ (profile : UserProfile) (jit : String → Meal → ℚ) (choose : String → ℕ),
      RecommendationEngine.generate_daily_meal_plan profile [] jit choose
        = ⟨[], ⟨0, 0, 0, 0⟩⟩) := by
  refine ⟨?_, ?_, ?_, ?_, ?_⟩
  · intro pool t tc tm pref jit
    exact RecommendationEngine.argmaxBy_eq_none _ _
  · intro profile all_meals pool t jit choose hpool hall
    have hs : RecommendationEngine.select_best_meal pool t
        (profile.target_calories * RecommendationEngine.slotWeight t)
        (RecommendationEngine.slotMacros profile t) profile.dietary_preference jit = none := by
      exact (RecommendationEngine.argmaxBy_eq_none _ _).mpr hpool
    have hlen : 0 < (all_meals.filter (fun m => decide (m.meal_type = t))).length :=
      List.length_pos.mpr hall
    have hmod : choose % (all_meals.filter (fun m => decide (m.meal_type = t))).length
        < (all_meals.filter (fun m => decide (m.meal_type = t))).length :=
      Nat.mod_lt _ hlen
    refine ⟨(all_meals.filter (fun m => decide (m.meal_type = t))).get ⟨_, hmod⟩, ?_,
      List.get_mem _ _ _⟩
    simp only [RecommendationEngine.daily_slot_selection, hs]
    exact List.get?_eq_get hmod
  · intro profile all_meals pool t jit choose hpool hall
    have hs : RecommendationEngine.select_best_meal pool t
        (profile.target_calories * RecommendationEngine.slotWeight t)
        (RecommendationEngine.slotMacros profile t) profile.dietary_preference jit = none := by
      exact (RecommendationEngine.argmaxBy_eq_none _ _).mpr hpool
    simp [RecommendationEngine.daily_slot_selection, hs, hall]
  · intro profile all_meals jit choose t hsel e
    exact RecommendationEngine.daily_loop_not_mem profile all_meals _ jit choose t hsel
      RecommendationEngine.daySlots [] ⟨0, 0, 0, 0⟩ (fun e h => List.not_mem_nil _ h) e
  · intro profile jit choose
    have h0 : pyRound1 0 = 0 := by norm_num [pyRound1, pyRound]
    show DailyPlan.mk [] ⟨pyRound1 0, pyRound1 0, pyRound1 0, pyRound1 0⟩ = _
    rw [h0]

/-- Witness for C8: each branch of the cascade exercised on concrete data —
an empty pool yields `none`; with no filtered breakfast but one unfiltered
breakfast meal the fallback picks it; with neither there is no selection;
the absent slot key is missing from the plan; the empty-pool plan is the
empty plan with zeroed totals. -/
theorem C8_selector_none_and_fallback_witness :
    RecommendationEngine.select_best_meal [] "lunch" 0 ⟨0, 0, 0⟩ "balanced" (fun _ => 0)
      = none ∧
    (∃ m, RecommendationEngine.daily_slot_selection sampleProfile [peanutButterMeal] []
        "breakfast" (fun _ => 0) 0 = some m
      ∧ m ∈ [peanutButterMeal].filter (fun m => decide (m.meal_type = "breakfast"))) ∧
    RecommendationEngine.daily_slot_selection sampleProfile [] [] "breakfast" (fun _ => 0) 0
      = none ∧
    (∀ e, ("breakfast", e) ∉ (RecommendationEngine.generate_daily_meal_plan sampleProfile []
        (fun _ _ => 0) (fun _ => 0)).slots) ∧
    RecommendationEngine.generate_daily_meal_plan sampleProfile [] (fun _ _ => 0) (fun _ => 0)
      = ⟨[], ⟨0, 0, 0, 0⟩⟩ :=
  ⟨(C8_selector_none_and_fallback.1 [] "lunch" 0 ⟨0, 0, 0⟩ "balanced" (fun _ => 0)).mpr rfl,
    C8_selector_none_and_fallback.2.1 sampleProfile [peanutButterMeal] [] "breakfast"
      (fun _ => 0) 0 rfl (by decide),
    C8_selector_none_and_fallback.2.2.1 sampleProfile [] [] "breakfast" (fun _ => 0) 0 rfl rfl,
    C8_selector_none_and_fallback.2.2.2.1 sampleProfile [] (fun _ _ => 0) (fun _ => 0)
      "breakfast" rfl,
    C8_selector_none_and_fallback.2.2.2.2 sampleProfile (fun _ _ => 0) (fun _ => 0)⟩

namespace RecommendationEngine

/-- The weekly usage tracker `used_meals` (line 334): per slot type, the
names already assigned this week (a Python set of strings; only membership
matters, so a list suffices). -/
def Tracker : Type := String → List String

/-- In-place mutation of one slot type's entry (`clear` / `add`). -/
def Tracker.update (u : Tracker) (slot : String) (v : List String) : Tracker :=
  fun t => if t = slot then v else u t

/-- Python truthiness of the optional `name` attribute (`if meal_name:`). -/
def nameTruthy : Option String → Bool
  | none => false
  | some n => decide (n ≠ "")

/-- Embeds `getattr(m, 'name', None) not in used_meals[mtype]` (line 348): a `None`
name is never a set member. -/
def notUsed (used_t : List String) (m : Meal) : Bool :=
  match m.name with
  | none => true
  | some n => !(used_t.contains n)

/-- The variety restriction of line 348: meals of the slot type whose name
is not yet used. -/
def unusedCandidates (pool : List Meal) (mtype : String) (used_t : List String) : List Meal :=
  pool.filter (fun m => decide (m.meal_type = mtype) && notUsed used_t m)

/-- Candidate scoring with the flat new-meal bonus (lines 364-371). -/
def varietyScore (profile : UserProfile) (mtype : String) (used_t : List String)
    (jit : Meal → ℚ) (m : Meal) : ℚ :=
  let s := score_meal m (profile.target_calories * slotWeight mtype) (slotMacros profile mtype)
    profile.dietary_preference (jit m)
  match m.name with
  | none => s
  | some n => if decide (n ≠ "") && !(used_t.contains n) then s + 0.5 else s

/-- The outcome of one weekly slot iteration: the selected meal, if any, and
the tracker as left behind. -/
structure SlotResult where
  selected : Option Meal
  tracker : Tracker

/-- The tracker after the possible per-type reset of lines 350-353: cleared
for this slot type exactly when the unused restriction is empty. -/
def stepUsed1 (pool : List Meal) (used : Tracker) (mtype : String) : Tracker :=
  if (unusedCandidates pool mtype (used mtype)).isEmpty
  then Tracker.update used mtype [] else used

/-- The candidate list after the fallback cascade of lines 348-358: the
unused restriction, else all filtered meals of the type, else all meals of
the type in the unfiltered pool. -/
def stepAvailable2 (all_meals pool : List Meal) (mtype : String) (used_t : List String) :
    List Meal :=
  let available0 := unusedCandidates pool mtype used_t
  let available1 := if available0.isEmpty
    then pool.filter (fun m => decide (m.meal_type = mtype)) else available0
  if available1.isEmpty then all_meals.filter (fun m => decide (m.meal_type = mtype))
  else available1

/-- Marking the winner's truthy name as used (lines 376-379): `None` and the
empty string are never added. -/
def markUsed (used1 : Tracker) (mtype : String) : Option Meal → Tracker
  | none => used1
  | some sel =>
    match sel.name with
    | some n => if n = "" then used1 else Tracker.update used1 mtype (n :: used1 mtype)
    | none => used1

/-- One slot iteration of `generate_weekly_meal_plan` (lines 343-379):
restrict to unused meals of the type (with the reset-and-fallback cascade),
pick the first maximum of the variety scores (Python's stable descending
sort takes the earliest maximal element) and mark the winner's truthy name
as used. When even the last fallback is empty the slot yields no selection
(`continue`, line 360-361). -/
def weekly_slot_step (profile : UserProfile) (all_meals pool : List Meal) (used : Tracker)
    (mtype : String) (jit : Meal → ℚ) : SlotResult :=
  let used1 := stepUsed1 pool used mtype
  let sel := argmaxBy (varietyScore profile mtype (used1 mtype) jit)
    (stepAvailable2 all_meals pool mtype (used mtype))
  { selected := sel, tracker := markUsed used1 mtype sel }

/-- The slot loop of one weekly day (lines 343-394), returning the
assignments in slot order and the tracker it leaves behind. -/
def weekly_slots_go (profile : UserProfile) (all_meals pool : List Meal)
    (jit : String → Meal → ℚ) : List String → Tracker → List (String × Meal) × Tracker
  | [], used => ([], used)
  | t :: ts, used =>
    let r := weekly_slot_step profile all_meals pool used t (jit t)
    let rest := weekly_slots_go profile all_meals pool jit ts r.tracker
    match r.selected with
    | some m => ((t, m) :: rest.1, rest.2)
    | none => rest

/-- One day of `generate_weekly_meal_plan` (lines 338-405): fill the four
slots threading the tracker, accumulate raw totals, round to one decimal.
The `date`/`day_of_week` labels are environment time and are not modeled. -/
def weekly_day (profile : UserProfile) (all_meals pool : List Meal)
    (jit : String → Meal → ℚ) (used : Tracker) : DailyPlan × Tracker :=
  let r := weekly_slots_go profile all_meals pool jit daySlots used
  ({ slots := r.1.map (fun p => (p.1, mealToEntry p.2))
    , daily_totals := ⟨pyRound1 ((r.1.map (fun p => p.2.calories)).sum),
        pyRound1 ((r.1.map (fun p => p.2.protein)).sum),
        pyRound1 ((r.1.map (fun p => p.2.carbs)).sum),
        pyRound1 ((r.1.map (fun p => p.2.fat)).sum)⟩ }, r.2)

/-- The 7-iteration day loop of line 338; `day` indexes the per-day jitter
draws. -/
def weekly_go (profile : UserProfile) (all_meals pool : List Meal)
    (jit : ℕ → String → Meal → ℚ) : ℕ → ℕ → Tracker → List DailyPlan
  | 0, _, _ => []
  | n + 1, day, used =>
    let r := weekly_day profile all_meals pool (jit day) used
    r.1 :: weekly_go profile all_meals pool jit n (day + 1) r.2

/-- Embeds `RecommendationEngine.generate_weekly_meal_plan` (lines 302-408). -/
def generate_weekly_meal_plan (profile : UserProfile) (all_meals : List Meal)
    (jit : ℕ → String → Meal → ℚ) : List DailyPlan :=
  let pool := filter_meals_by_preference all_meals profile.dietary_preference profile.allergies
  weekly_go profile all_meals pool jit 7 0 (fun _ => [])

/-- The fold inside `argmaxBy` returns the accumulator or a list element. -/
theorem foldl_max_mem (f : Meal → ℚ) : ∀ (l : List Meal) (a : Meal),
    l.foldl (fun best x => if f x > f best then x else best) a ∈ a :: l
  | [], a => by simp
  | x :: xs, a => by
    simp only [List.foldl_cons]
    have h := foldl_max_mem f xs (if f x > f a then x else a)
    rcases List.mem_cons.mp h with h | h
    · rw [h]
      split
      · simp
      · simp
    · simp [h]

/-- A meal returned by `argmaxBy` is a member of the candidate list. -/
theorem argmaxBy_mem (f : Meal → ℚ) {l : List Meal} {w : Meal} (h : argmaxBy f l = some w) :
    w ∈ l := by
  cases l with
  | nil => exact Option.noConfusion h
  | cons m ms =>
    have hw : w = ms.foldl (fun best x => if f x > f best then x else best) m := by
      simpa [argmaxBy] using h.symm
    rw [hw]
    exact foldl_max_mem f ms m

/-- The function `argmaxBy` succeeds on a nonempty list. -/
theorem argmaxBy_isSome (f : Meal → ℚ) {l : List Meal} (h : l ≠ []) :
    ∃ w, argmaxBy f l = some w := by
  cases l with
  | nil => exact absurd rfl h
  | cons m ms => exact ⟨_, rfl⟩

/-- The function `markUsed` never touches the tracker of a different slot type. -/
theorem markUsed_other (used1 : Tracker) (mtype : String) (sel : Option Meal) (t' : String)
    (h : t' ≠ mtype) : markUsed used1 mtype sel t' = used1 t' := by
  cases sel with
  | none => rfl
  | some m =>
    cases hn : m.name with
    | none => simp [markUsed, hn]
    | some n =>
      simp only [markUsed, hn]
      split
      · rfl
      · simp [Tracker.update, h]

/-- The function `markUsed` only adds to the tracker, never removes. -/
theorem markUsed_mono (used1 : Tracker) (mtype : String) (sel : Option Meal) (t' : String) :
    ∀ n ∈ used1 t', n ∈ markUsed used1 mtype sel t' := by
  intro n hn
  cases sel with
  | none => exact hn
  | some m =>
    cases hname : m.name with
    | none => simpa [markUsed, hname] using hn
    | some n' =>
      simp only [markUsed, hname]
      split
      · exact hn
      · by_cases ht : t' = mtype
        · subst ht
          simp only [Tracker.update, if_pos rfl]
          exact List.mem_cons_of_mem _ hn
        · simpa [Tracker.update, ht] using hn

/-- The intermediate tracker is unchanged away from the stepped slot type. -/
theorem stepUsed1_other (pool : List Meal) (used : Tracker) (mtype : String) (t' : String)
    (h : t' ≠ mtype) : stepUsed1 pool used mtype t' = used t' := by
  unfold stepUsed1
  split
  · simp [Tracker.update, h]
  · rfl

/-- Projections of a slot step. -/
theorem weekly_slot_step_eq (profile : UserProfile) (all_meals pool : List Meal)
    (used : Tracker) (mtype : String) (jit : Meal → ℚ) :
    (weekly_slot_step profile all_meals pool used mtype jit).selected
        = argmaxBy (varietyScore profile mtype (stepUsed1 pool used mtype mtype) jit)
            (stepAvailable2 all_meals pool mtype (used mtype)) ∧
    (weekly_slot_step profile all_meals pool used mtype jit).tracker
        = markUsed (stepUsed1 pool used mtype) mtype
            (argmaxBy (varietyScore profile mtype (stepUsed1 pool used mtype mtype) jit)
              (stepAvailable2 all_meals pool mtype (used mtype))) :=
  ⟨rfl, rfl⟩

/-- A slot step never touches the tracker of a different slot type. -/
theorem weekly_slot_step_other (profile : UserProfile) (all_meals pool : List Meal)
    (used : Tracker) (mtype : String) (jit : Meal → ℚ) (t' : String) (h : t' ≠ mtype) :
    (weekly_slot_step profile all_meals pool used mtype jit).tracker t' = used t' := by
  rw [(weekly_slot_step_eq profile all_meals pool used mtype jit).2,
    markUsed_other _ _ _ _ h, stepUsed1_other _ _ _ _ h]

/-- When the unused-candidate restriction is nonempty, the tracker of the
slot type is never cleared: every already-used name survives the step. -/
theorem weekly_slot_step_no_clear (profile : UserProfile) (all_meals pool : List Meal)
    (used : Tracker) (mtype : String) (jit : Meal → ℚ)
    (hne : unusedCandidates pool mtype (used mtype) ≠ []) :
    ∀ n ∈ used mtype,
      n ∈ (weekly_slot_step profile all_meals pool used mtype jit).tracker mtype := by
  have hie : (unusedCandidates pool mtype (used mtype)).isEmpty = false := by
    simpa [List.isEmpty_iff] using hne
  have hu1 : stepUsed1 pool used mtype = used := by
    unfold stepUsed1
    simp [hie]
  intro n hn
  rw [(weekly_slot_step_eq profile all_meals pool used mtype jit).2, hu1]
  exact markUsed_mono used mtype _ mtype n hn

/-- On a pool whose meals of the slot type all have truthy names, a step with
a nonempty unused restriction selects an unused truthy-named meal of the
type from the pool and pushes exactly its name onto this type's tracker. -/
theorem weekly_slot_step_selects (profile : UserProfile) (all_meals pool : List Meal)
    (used : Tracker) (mtype : String) (jit : Meal → ℚ)
    (hnames : ∀ m ∈ pool, m.meal_type = mtype → nameTruthy m.name = true)
    (hex : unusedCandidates pool mtype (used mtype) ≠ []) :
    ∃ (w : Meal) (n : String),
      (weekly_slot_step profile all_meals pool used mtype jit).selected = some w ∧
      w ∈ pool ∧ w.meal_type = mtype ∧ w.name = some n ∧ n ≠ "" ∧ n ∉ used mtype ∧
      (weekly_slot_step profile all_meals pool used mtype jit).tracker mtype
        = n :: used mtype := by
  have hie : (unusedCandidates pool mtype (used mtype)).isEmpty = false := by
    simpa [List.isEmpty_iff] using hex
  have hu1 : stepUsed1 pool used mtype = used := by
    unfold stepUsed1
    simp [hie]
  have hav : stepAvailable2 all_meals pool mtype (used mtype)
      = unusedCandidates pool mtype (used mtype) := by
    unfold stepAvailable2
    simp [hie]
  obtain ⟨w, hw⟩ := argmaxBy_isSome (varietyScore profile mtype (used mtype) jit) hex
  have hwmem := argmaxBy_mem _ hw
  have hwpool : w ∈ pool ∧ (decide (w.meal_type = mtype) && notUsed (used mtype) w) = true := by
    have := List.mem_filter.mp hwmem
    exact this
  have hwsplit : w.meal_type = mtype ∧ notUsed (used mtype) w = true := by
    have := hwpool.2
    simp only [Bool.and_eq_true, decide_eq_true_eq] at this
    exact this
  have htruthy := hnames w hwpool.1 hwsplit.1
  obtain ⟨n, hname⟩ : ∃ n, w.name = some n := by
    cases hn : w.name with
    | none => rw [hn] at htruthy; exact Bool.noConfusion htruthy
    | some n => exact ⟨n, rfl⟩
  have hn0 : n ≠ "" := by
    rw [hname] at htruthy
    simpa [nameTruthy] using htruthy
  have hnmem : n ∉ used mtype := by
    have := hwsplit.2
    rw [notUsed, hname] at this
    simpa using this
  have hsel : (weekly_slot_step profile all_meals pool used mtype jit).selected = some w := by
    rw [(weekly_slot_step_eq profile all_meals pool used mtype jit).1, hu1, hav, hw]
  have htr : (weekly_slot_step profile all_meals pool used mtype jit).tracker mtype
      = n :: used mtype := by
    rw [(weekly_slot_step_eq profile all_meals pool used mtype jit).2, hu1, hav, hw]
    simp only [markUsed, hname, if_neg hn0]
    simp [Tracker.update]
  exact ⟨w, n, hsel, hwpool.1, hwsplit.1, hname, hn0, hnmem, htr⟩

/-- The slot loop leaves untouched the tracker of slot types it does not
iterate. -/
theorem weekly_slots_go_other (profile : UserProfile) (all_meals pool : List Meal)
    (jit : String → Meal → ℚ) :
    ∀ (ts : List String) (used : Tracker) (t' : String), t' ∉ ts →
      (weekly_slots_go profile all_meals pool jit ts used).2 t' = used t'
  | [], _, _, _ => rfl
  | t :: ts, used, t', h => by
    have hne : t' ≠ t := fun he => h (he ▸ List.mem_cons_self t ts)
    have hts : t' ∉ ts := fun hm => h (List.mem_cons_of_mem t hm)
    have ih := weekly_slots_go_other profile all_meals pool jit ts
      (weekly_slot_step profile all_meals pool used t (jit t)).tracker t' hts
    have hstep := weekly_slot_step_other profile all_meals pool used t (jit t) t' hne
    simp only [weekly_slots_go]
    cases hsel : (weekly_slot_step profile all_meals pool used t (jit t)).selected <;>
      simp only [hsel] <;> rw [ih, hstep]

/-- Within one day's slot loop, the step at an iterated slot type `t` runs on
a tracker agreeing at `t` with the day's initial tracker; the final tracker
at `t` is the one left by that step, and its selection, if any, is among the
day's assignments. -/
theorem weekly_slots_go_at (profile : UserProfile) (all_meals pool : List Meal)
    (jit : String → Meal → ℚ) :
    ∀ (ts : List String) (used : Tracker) (t : String), t ∈ ts → ts.Nodup →
      ∃ used_pre : Tracker, used_pre t = used t ∧
        (weekly_slots_go profile all_meals pool jit ts used).2 t
          = (weekly_slot_step profile all_meals pool used_pre t (jit t)).tracker t ∧
        ∀ m, (weekly_slot_step profile all_meals pool used_pre t (jit t)).selected = some m →
          (t, m) ∈ (weekly_slots_go profile all_meals pool jit ts used).1
  | [], _, t, ht, _ => absurd ht (List.not_mem_nil t)
  | t0 :: ts, used, t, ht, hnd => by
    have hnd' := List.nodup_cons.mp hnd
    rcases List.mem_cons.mp ht with heq | hmem
    · subst heq
      refine ⟨used, rfl, ?_, ?_⟩
      · simp only [weekly_slots_go]
        cases hsel : (weekly_slot_step profile all_meals pool used t (jit t)).selected <;>
          simp only [hsel] <;>
          exact weekly_slots_go_other profile all_meals pool jit ts _ t hnd'.1
      · intro m hm
        simp only [weekly_slots_go, hm]
        exact List.mem_cons_self _ _
    · have hne : t ≠ t0 := fun he => hnd'.1 (he ▸ hmem)
      obtain ⟨up, hup, htr, hassign⟩ := weekly_slots_go_at profile all_meals pool jit ts
        (weekly_slot_step profile all_meals pool used t0 (jit t0)).tracker t hmem hnd'.2
      refine ⟨up, ?_, ?_, ?_⟩
      · rw [hup, weekly_slot_step_other profile all_meals pool used t0 (jit t0) t hne]
      · simp only [weekly_slots_go]
        cases hsel : (weekly_slot_step profile all_meals pool used t0 (jit t0)).selected <;>
          simp only [hsel] <;> exact htr
      · intro m hm
        have hrest := hassign m hm
        simp only [weekly_slots_go]
        cases hsel : (weekly_slot_step profile all_meals pool used t0 (jit t0)).selected <;>
          simp only [hsel]
        · exact hrest
        · exact List.mem_cons_of_mem _ hrest

/-- The intermediate tracker only ever loses names (the per-type clear). -/
theorem stepUsed1_sub (pool : List Meal) (used : Tracker) (mtype : String) :
    ∀ (t' : String) (n : String), n ∈ stepUsed1 pool used mtype t' → n ∈ used t' := by
  intro t' n
  unfold stepUsed1
  split
  · by_cases ht : t' = mtype
    · subst ht
      simp [Tracker.update]
    · simp [Tracker.update, ht]
  · exact id

/-- An untruthy winner name leaves the tracker untouched. -/
theorem markUsed_untruthy (used1 : Tracker) (mtype : String) (m : Meal)
    (h : nameTruthy m.name = false) : markUsed used1 mtype (some m) = used1 := by
  cases hn : m.name with
  | none => simp [markUsed, hn]
  | some n =>
    have hn0 : n = "" := by
      rw [hn] at h
      simpa [nameTruthy] using h
    simp [markUsed, hn, hn0]

/-- The function `markUsed` never introduces the empty string into the tracker. -/
theorem markUsed_no_empty (used1 : Tracker) (mtype : String) (sel : Option Meal)
    (h : ∀ t', "" ∉ used1 t') : ∀ t', "" ∉ markUsed used1 mtype sel t' := by
  intro t' hmem
  cases sel with
  | none => exact h t' hmem
  | some m =>
    cases hn : m.name with
    | none =>
      simp only [markUsed, hn] at hmem
      exact h t' hmem
    | some n =>
      simp only [markUsed, hn] at hmem
      by_cases hn0 : n = ""
      · rw [if_pos hn0] at hmem
        exact h t' hmem
      · rw [if_neg hn0] at hmem
        by_cases ht : t' = mtype
        · subst ht
          rw [Tracker.update, if_pos rfl] at hmem
          rcases List.mem_cons.mp hmem with he | he
          · exact hn0 he.symm
          · exact h _ he
        · rw [Tracker.update, if_neg ht] at hmem
          exact h t' hmem

end RecommendationEngine

/-- An unnamed breakfast meal that fits `sampleProfile`'s breakfast budget
(500 kcal, 30/50/20 g) exactly. -/
def unnamedBreakfast : Meal :=
  { id := some 10, name := none, meal_type := "breakfast"
  , calories := 500, protein := 30, carbs := 50, fat := 20
  , dietary_tags := [], ingredients := [] }

/-- A named breakfast meal far from the budget. -/
def namedBreakfast : Meal :=
  { id := some 11, name := some "Oatmeal", meal_type := "breakfast"
  , calories := 5000, protein := 0, carbs := 0, fat := 0
  , dietary_tags := [], ingredients := [] }

/-- C7: within `generate_weekly_meal_plan`'s slot step, the trackers of the
other slot types are never modified, and the stepped slot type's tracker is
cleared only when its unused-candidate restriction is empty: when the
restriction is nonempty every already-used name survives the step. -/
theorem C7_tracker_reset_local :
    (∀ (profile : UserProfile) (all_meals pool : List Meal)
        (used : RecommendationEngine.Tracker) (mtype : String) (jit : Meal → ℚ) (t' : String),
      t' ≠ mtype →
      (RecommendationEngine.weekly_slot_step profile all_meals pool used mtype jit).tracker t'
        = used t') ∧
    (∀ (profile : UserProfile) (all_meals pool : List Meal)
        (used : RecommendationEngine.Tracker) (mtype : String) (jit : Meal → ℚ),
      RecommendationEngine.unusedCandidates pool mtype (used mtype) ≠ [] →
      ∀ n ∈ used mtype,
        n ∈ (RecommendationEngine.weekly_slot_step profile all_meals pool used mtype
          jit).tracker mtype) :=
  ⟨fun profile all_meals pool used mtype jit t' h =>
      RecommendationEngine.weekly_slot_step_other profile all_meals pool used mtype jit t' h,
    fun profile all_meals pool used mtype jit hne =>
      RecommendationEngine.weekly_slot_step_no_clear profile all_meals pool used mtype jit hne⟩

/-- Witness for C7: a breakfast step leaves the lunch tracker empty, and with
a nonempty unused restriction the already-used name "Oats" survives the
breakfast step. -/
theorem C7_tracker_reset_local_witness :
    (RecommendationEngine.weekly_slot_step sampleProfile [] [] (fun _ => []) "breakfast"
        (fun _ => 0)).tracker "lunch" = [] ∧
    "Oats" ∈ (RecommendationEngine.weekly_slot_step sampleProfile [peanutButterMeal]
        [peanutButterMeal] (fun _ => ["Oats"]) "breakfast" (fun _ => 0)).tracker "breakfast" :=
  ⟨C7_tracker_reset_local.1 sampleProfile [] [] (fun _ => []) "breakfast" (fun _ => 0) "lunch"
      (by decide),
    C7_tracker_reset_local.2 sampleProfile [peanutButterMeal] [peanutButterMeal]
      (fun _ => ["Oats"]) "breakfast" (fun _ => 0) (by decide) "Oats" (by decide)⟩

/-- C10: a winner whose name is `None` or `""` is never added to the usage
tracker (the tracker can only shrink); such a meal never receives the +0.5
new-meal bonus; it stays in the unused-candidate restriction regardless of
the tracker (which, as the last part shows, never acquires `""` during a
run); so the variety mechanism does not apply to unnamed meals. -/
theorem C10_unnamed_meals_untracked :
    (∀ (profile : UserProfile) (all_meals pool : List Meal)
        (used : RecommendationEngine.Tracker) (mtype : String) (jit : Meal → ℚ) (m : Meal),
      (RecommendationEngine.weekly_slot_step profile all_meals pool used mtype jit).selected
          = some m →
      (m.name = none ∨ m.name = some "") →
      ∀ (t' : String) (n : String),
        n ∈ (RecommendationEngine.weekly_slot_step profile all_meals pool used mtype
          jit).tracker t' → n ∈ used t') ∧
    (∀ (profile : UserProfile) (mtype : String) (used_t : List String) (jit : Meal → ℚ)
        (m : Meal),
      (m.name = none ∨ m.name = some "") →
      RecommendationEngine.varietyScore profile mtype used_t jit m
        = RecommendationEngine.score_meal m
            (profile.target_calories * RecommendationEngine.slotWeight mtype)
            (RecommendationEngine.slotMacros profile mtype) profile.dietary_preference (jit m)) ∧
    (∀ (pool : List Meal) (mtype : String) (used_t : List String) (m : Meal),
      m ∈ pool → m.meal_type = mtype → (m.name = none ∨ m.name = some "") →
      "" ∉ used_t →
      m ∈ RecommendationEngine.unusedCandidates pool mtype used_t) ∧
    (∀ (profile : UserProfile) (all_meals pool : List Meal)
        (used : RecommendationEngine.Tracker) (mtype : String) (jit : Meal → ℚ),
      (∀ t', "" ∉ used t') →
      ∀ t', "" ∉ (RecommendationEngine.weekly_slot_step profile all_meals pool used mtype
        jit).tracker t') := by
  refine ⟨?_, ?_, ?_, ?_⟩
  · intro profile all_meals pool used mtype jit m hsel huntruthy t' n hn
    have hfalse : RecommendationEngine.nameTruthy m.name = false := by
      rcases huntruthy with h | h <;> simp [RecommendationEngine.nameTruthy, h]
    rw [(RecommendationEngine.weekly_slot_step_eq profile all_meals pool used mtype jit).2]
      at hn
    rw [(RecommendationEngine.weekly_slot_step_eq profile all_meals pool used mtype jit).1]
      at hsel
    rw [hsel, RecommendationEngine.markUsed_untruthy _ _ _ hfalse] at hn
    exact RecommendationEngine.stepUsed1_sub pool used mtype t' n hn
  · intro profile mtype used_t jit m huntruthy
    rcases huntruthy with h | h <;> simp [RecommendationEngine.varietyScore, h]
  · intro pool mtype used_t m hmem htype huntruthy hempty
    have hnu : RecommendationEngine.notUsed used_t m = true := by
      rcases huntruthy with h | h <;> simp [RecommendationEngine.notUsed, h]
      intro hc
      exact absurd hc hempty
    refine List.mem_filter.mpr ⟨hmem, ?_⟩
    simp [htype, hnu]
  · intro profile all_meals pool used mtype jit hno t'
    rw [(RecommendationEngine.weekly_slot_step_eq profile all_meals pool used mtype jit).2]
    refine RecommendationEngine.markUsed_no_empty _ _ _ ?_ t'
    intro t'' hmem
    exact hno t'' (RecommendationEngine.stepUsed1_sub pool used mtype t'' "" hmem)

/-- Witness for C10: the unnamed breakfast meal wins a step without
enlarging the tracker; its variety score equals its plain score; it stays in
the unused restriction; and a run state without `""` stays without `""`. -/
theorem C10_unnamed_meals_untracked_witness :
    "X" ∈ (["X"] : List String) ∧
    RecommendationEngine.varietyScore sampleProfile "breakfast" [] (fun _ => 0) unnamedBreakfast
      = RecommendationEngine.score_meal unnamedBreakfast
          (sampleProfile.target_calories * RecommendationEngine.slotWeight "breakfast")
          (RecommendationEngine.slotMacros sampleProfile "breakfast")
          sampleProfile.dietary_preference 0 ∧
    unnamedBreakfast ∈ RecommendationEngine.unusedCandidates [unnamedBreakfast] "breakfast"
      ["A"] ∧
    "" ∉ (RecommendationEngine.weekly_slot_step sampleProfile [unnamedBreakfast]
      [unnamedBreakfast] (fun _ => []) "breakfast" (fun _ => 0)).tracker "breakfast" :=
  ⟨C10_unnamed_meals_untracked.1 sampleProfile [unnamedBreakfast] [unnamedBreakfast]
      (fun _ => ["X"]) "breakfast" (fun _ => 0) unnamedBreakfast rfl (Or.inl rfl)
      "breakfast" "X" (by decide),
    C10_unnamed_meals_untracked.2.1 sampleProfile "breakfast" [] (fun _ => 0) unnamedBreakfast
      (Or.inl rfl),
    C10_unnamed_meals_untracked.2.2.1 [unnamedBreakfast] "breakfast" ["A"] unnamedBreakfast
      (by decide) rfl (Or.inl rfl) (by decide),
    C10_unnamed_meals_untracked.2.2.2 sampleProfile [unnamedBreakfast] [unnamedBreakfast]
      (fun _ => []) "breakfast" (fun _ => 0) (fun _ => List.not_mem_nil _) "breakfast"⟩

namespace RecommendationEngine

/-- Unfolding one day of the weekly loop. -/
theorem weekly_go_succ (profile : UserProfile) (all_meals pool : List Meal)
    (jit : ℕ → String → Meal → ℚ) (n day : ℕ) (used : Tracker) :
    weekly_go profile all_meals pool jit (n + 1) day used
      = (weekly_day profile all_meals pool (jit day) used).1
        :: weekly_go profile all_meals pool jit n (day + 1)
            (weekly_day profile all_meals pool (jit day) used).2 := rfl

end RecommendationEngine

/-- C6 amended: when every slot-`t` meal of the preference-filtered pool has
a truthy (non-`None`, nonempty) name and at least two distinct names occur
among them, the 7-day weekly plan assigns at least two distinct meal
identities (entries with different names) to slot `t`. Unnamed or
empty-named meals void the guarantee (see the counterexample), as do
duplicated names. -/
theorem C6_weekly_variety_amended (profile : UserProfile) (all_meals : List Meal)
    (jit : ℕ → String → Meal → ℚ) (t : String)
    (ht : t ∈ RecommendationEngine.daySlots)
    (hnames : ∀ m ∈ RecommendationEngine.filter_meals_by_preference all_meals
        profile.dietary_preference profile.allergies,
      m.meal_type = t → RecommendationEngine.nameTruthy m.name = true)
    (htwo : ∃ m1 ∈ RecommendationEngine.filter_meals_by_preference all_meals
          profile.dietary_preference profile.allergies,
        ∃ m2 ∈ RecommendationEngine.filter_meals_by_preference all_meals
          profile.dietary_preference profile.allergies,
        m1.meal_type = t ∧ m2.meal_type = t ∧ m1.name ≠ m2.name) :
    ∃ e1 e2 : SlotEntry,
      (∃ d ∈ RecommendationEngine.generate_weekly_meal_plan profile all_meals jit,
        (t, e1) ∈ d.slots) ∧
      (∃ d ∈ RecommendationEngine.generate_weekly_meal_plan profile all_meals jit,
        (t, e2) ∈ d.slots) ∧
      e1.name ≠ e2.name := by
  obtain ⟨m1, hm1p, m2, hm2p, hm1t, hm2t, hmn⟩ := htwo
  set pool := RecommendationEngine.filter_meals_by_preference all_meals
    profile.dietary_preference profile.allergies with hpooldef
  have hnd : RecommendationEngine.daySlots.Nodup := by decide
  -- Day 1: the slot-t step runs on an empty tracker entry.
  obtain ⟨u1, hu1, htr1, hass1⟩ := RecommendationEngine.weekly_slots_go_at profile all_meals
    pool (jit 0) RecommendationEngine.daySlots (fun _ => []) t ht hnd
  have hu1nil : u1 t = [] := hu1
  have hm1unused : m1 ∈ RecommendationEngine.unusedCandidates pool t (u1 t) := by
    rw [hu1nil]
    refine List.mem_filter.mpr ⟨hm1p, ?_⟩
    cases hname : m1.name <;>
      simp [RecommendationEngine.notUsed, hname, hm1t]
  obtain ⟨w1, n1, hw1sel, hw1p, hw1t, hw1name, hw1n0, hw1nm, hw1tr⟩ :=
    RecommendationEngine.weekly_slot_step_selects profile all_meals pool u1 t ((jit 0) t)
      hnames (List.ne_nil_of_mem hm1unused)
  -- Day 1 plan and tracker.
  have hd1mem : (t, RecommendationEngine.mealToEntry w1)
      ∈ (RecommendationEngine.weekly_day profile all_meals pool (jit 0) (fun _ => [])).1.slots :=
    List.mem_map_of_mem _ (hass1 w1 hw1sel)
  have htr1' : (RecommendationEngine.weekly_day profile all_meals pool (jit 0)
      (fun _ => [])).2 t = [n1] := by
    show (RecommendationEngine.weekly_slots_go profile all_meals pool (jit 0)
      RecommendationEngine.daySlots (fun _ => [])).2 t = [n1]
    rw [htr1, hw1tr, hu1nil]
  -- Day 2: the slot-t step runs on the tracker holding exactly n1.
  obtain ⟨u2, hu2, htr2, hass2⟩ := RecommendationEngine.weekly_slots_go_at profile all_meals
    pool (jit 1) RecommendationEngine.daySlots
    (RecommendationEngine.weekly_day profile all_meals pool (jit 0) (fun _ => [])).2 t ht hnd
  have hu2n1 : u2 t = [n1] := by rw [hu2, htr1']
  -- One of m1, m2 has a name other than n1.
  have hfresh : ∃ m' ∈ pool, m'.meal_type = t ∧ m'.name ≠ some n1 := by
    by_cases hc : m1.name = some n1
    · exact ⟨m2, hm2p, hm2t, fun h => hmn (hc.trans h.symm)⟩
    · exact ⟨m1, hm1p, hm1t, hc⟩
  obtain ⟨m', hm'p, hm't, hm'name⟩ := hfresh
  have hm'unused : m' ∈ RecommendationEngine.unusedCandidates pool t (u2 t) := by
    rw [hu2n1]
    refine List.mem_filter.mpr ⟨hm'p, ?_⟩
    cases hname : m'.name with
    | none => simp [RecommendationEngine.notUsed, hname, hm't]
    | some n' =>
      have : n' ≠ n1 := by
        intro h
        exact hm'name (by rw [hname, h])
      simp [RecommendationEngine.notUsed, hname, hm't, this]
  obtain ⟨w2, n2, hw2sel, hw2p, hw2t, hw2name, hw2n0, hw2nm, hw2tr⟩ :=
    RecommendationEngine.weekly_slot_step_selects profile all_meals pool u2 t ((jit 1) t)
      hnames (List.ne_nil_of_mem hm'unused)
  have hd2mem : (t, RecommendationEngine.mealToEntry w2)
      ∈ (RecommendationEngine.weekly_day profile all_meals pool (jit 1)
          (RecommendationEngine.weekly_day profile all_meals pool (jit 0)
            (fun _ => [])).2).1.slots :=
    List.mem_map_of_mem _ (hass2 w2 hw2sel)
  have hn2ne : n2 ≠ n1 := by
    intro h
    rw [hu2n1] at hw2nm
    exact hw2nm (h ▸ List.mem_singleton_self n1)
  -- Assemble: the weekly plan starts with those two days.
  have hplan : RecommendationEngine.generate_weekly_meal_plan profile all_meals jit
      = (RecommendationEngine.weekly_day profile all_meals pool (jit 0) (fun _ => [])).1
        :: (RecommendationEngine.weekly_day profile all_meals pool (jit 1)
            (RecommendationEngine.weekly_day profile all_meals pool (jit 0)
              (fun _ => [])).2).1
        :: RecommendationEngine.weekly_go profile all_meals pool jit 5 2
            (RecommendationEngine.weekly_day profile all_meals pool (jit 1)
              (RecommendationEngine.weekly_day profile all_meals pool (jit 0)
                (fun _ => [])).2).2 := rfl
  refine ⟨RecommendationEngine.mealToEntry w1, RecommendationEngine.mealToEntry w2,
    ⟨_, by rw [hplan]; exact List.mem_cons_self _ _, hd1mem⟩,
    ⟨_, by rw [hplan]; exact List.mem_cons_of_mem _ (List.mem_cons_self _ _), hd2mem⟩, ?_⟩
  show w1.name ≠ w2.name
  rw [hw1name, hw2name]
  intro h
  exact hn2ne (Option.some.inj h).symm

/-- A named breakfast meal matching the sample budget. -/
def mealA : Meal :=
  { id := some 20, name := some "A", meal_type := "breakfast"
  , calories := 500, protein := 30, carbs := 50, fat := 20
  , dietary_tags := [], ingredients := [] }

/-- A second named breakfast meal. -/
def mealB : Meal :=
  { id := some 21, name := some "B", meal_type := "breakfast"
  , calories := 450, protein := 25, carbs := 45, fat := 18
  , dietary_tags := [], ingredients := [] }

/-- Witness for the amended C6: with two distinctly-named breakfast meals in
the pool, the weekly plan assigns two differently-named breakfast entries. -/
theorem C6_weekly_variety_amended_witness :
    ∃ e1 e2 : SlotEntry,
      (∃ d ∈ RecommendationEngine.generate_weekly_meal_plan sampleProfile [mealA, mealB]
          (fun _ _ _ => 0), ("breakfast", e1) ∈ d.slots) ∧
      (∃ d ∈ RecommendationEngine.generate_weekly_meal_plan sampleProfile [mealA, mealB]
          (fun _ _ _ => 0), ("breakfast", e2) ∈ d.slots) ∧
      e1.name ≠ e2.name :=
  C6_weekly_variety_amended sampleProfile [mealA, mealB] (fun _ _ _ => 0) "breakfast"
    (by decide) (by decide) (by decide)

/-- The counterexample pool: an unnamed perfect-fit breakfast meal and a
named poor-fit one. -/
def cexMeals : List Meal := [unnamedBreakfast, namedBreakfast]

/-- The variety score exceeds the plain score by at most the 0.5 bonus. -/
theorem varietyScore_le (profile : UserProfile) (mtype : String) (used_t : List String)
    (jit : Meal → ℚ) (m : Meal) :
    RecommendationEngine.varietyScore profile mtype used_t jit m
      ≤ RecommendationEngine.score_meal m
          (profile.target_calories * RecommendationEngine.slotWeight mtype)
          (RecommendationEngine.slotMacros profile mtype) profile.dietary_preference (jit m)
        + 1/2 := by
  unfold RecommendationEngine.varietyScore
  cases hname : m.name with
  | none =>
    simp only [hname]
    norm_num
  | some n =>
    simp only [hname]
    split <;> norm_num

/-- The unnamed meal scores 80 on the sample breakfast budget. -/
theorem cex_score_U :
    RecommendationEngine.score_meal unnamedBreakfast
      (sampleProfile.target_calories * RecommendationEngine.slotWeight "breakfast")
      (RecommendationEngine.slotMacros sampleProfile "breakfast")
      sampleProfile.dietary_preference 0 = 80 := by
  simp [RecommendationEngine.score_meal, RecommendationEngine.slotMacros,
    RecommendationEngine.slotWeight, sampleProfile, unnamedBreakfast]
  norm_num [max_def, abs_of_nonneg, abs_of_nonpos]

/-- The named meal scores 0 on the sample breakfast budget. -/
theorem cex_score_B :
    RecommendationEngine.score_meal namedBreakfast
      (sampleProfile.target_calories * RecommendationEngine.slotWeight "breakfast")
      (RecommendationEngine.slotMacros sampleProfile "breakfast")
      sampleProfile.dietary_preference 0 = 0 := by
  simp [RecommendationEngine.score_meal, RecommendationEngine.slotMacros,
    RecommendationEngine.slotWeight, sampleProfile, namedBreakfast]
  norm_num [max_def, abs_of_nonneg, abs_of_nonpos]

/-- The unnamed meal's variety score is its plain score, 80, for any tracker. -/
theorem cex_variety_U (used_t : List String) :
    RecommendationEngine.varietyScore sampleProfile "breakfast" used_t (fun _ => 0)
      unnamedBreakfast = 80 :=
  cex_score_U

/-- The breakfast step of the counterexample run always selects the unnamed
meal and leaves the tracker untouched, whatever its state. -/
theorem cex_breakfast_step (used : RecommendationEngine.Tracker) :
    RecommendationEngine.weekly_slot_step sampleProfile cexMeals cexMeals used "breakfast"
      (fun _ => 0) = ⟨some unnamedBreakfast, used⟩ := by
  have hUmem : unnamedBreakfast ∈ RecommendationEngine.unusedCandidates cexMeals "breakfast"
      (used "breakfast") := List.mem_filter.mpr ⟨List.mem_cons_self _ _, rfl⟩
  have hie : (RecommendationEngine.unusedCandidates cexMeals "breakfast"
      (used "breakfast")).isEmpty = false := by
    simpa [List.isEmpty_iff] using List.ne_nil_of_mem hUmem
  have hu1 : RecommendationEngine.stepUsed1 cexMeals used "breakfast" = used := by
    unfold RecommendationEngine.stepUsed1
    simp [hie]
  have hav : RecommendationEngine.stepAvailable2 cexMeals cexMeals "breakfast" (used "breakfast")
      = RecommendationEngine.unusedCandidates cexMeals "breakfast" (used "breakfast") := by
    unfold RecommendationEngine.stepAvailable2
    simp [hie]
  have hcmp : ¬(RecommendationEngine.varietyScore sampleProfile "breakfast" (used "breakfast")
        (fun _ => 0) namedBreakfast
      > RecommendationEngine.varietyScore sampleProfile "breakfast" (used "breakfast")
        (fun _ => 0) unnamedBreakfast) := by
    have hle := varietyScore_le sampleProfile "breakfast" (used "breakfast") (fun _ => 0)
      namedBreakfast
    rw [cex_score_B] at hle
    rw [cex_variety_U]
    intro hgt
    have : (80 : ℚ) < 0 + 1/2 := lt_of_lt_of_le hgt hle
    norm_num at this
  have hcand : RecommendationEngine.unusedCandidates cexMeals "breakfast" (used "breakfast")
      = unnamedBreakfast
        :: (if (used "breakfast").contains "Oatmeal" then []
            else [namedBreakfast]) := by
    show List.filter _ (unnamedBreakfast :: namedBreakfast :: []) = _
    cases hB : (used "breakfast").contains "Oatmeal"
    · have hB' : "Oatmeal" ∉ used "breakfast" := by simpa using hB
      simp [List.filter_cons, RecommendationEngine.notUsed, unnamedBreakfast, namedBreakfast,
        hB, hB']
    · have hB' : "Oatmeal" ∈ used "breakfast" := by simpa using hB
      simp [List.filter_cons, RecommendationEngine.notUsed, unnamedBreakfast, namedBreakfast,
        hB, hB']
  have hkey : RecommendationEngine.argmaxBy
      (RecommendationEngine.varietyScore sampleProfile "breakfast"
        ((RecommendationEngine.stepUsed1 cexMeals used "breakfast") "breakfast") (fun _ => 0))
      (RecommendationEngine.stepAvailable2 cexMeals cexMeals "breakfast" (used "breakfast"))
      = some unnamedBreakfast := by
    rw [hu1, hav, hcand]
    cases hB : (used "breakfast").contains "Oatmeal"
    · simp [RecommendationEngine.argmaxBy, hcmp]
    · simp [RecommendationEngine.argmaxBy]
  have hstep : RecommendationEngine.weekly_slot_step sampleProfile cexMeals cexMeals used
      "breakfast" (fun _ => 0)
      = { selected := some unnamedBreakfast
        , tracker := RecommendationEngine.markUsed
            (RecommendationEngine.stepUsed1 cexMeals used "breakfast") "breakfast"
            (some unnamedBreakfast) } := by
    simp only [RecommendationEngine.weekly_slot_step]
    rw [hkey]
  have htr : RecommendationEngine.markUsed (RecommendationEngine.stepUsed1 cexMeals used
      "breakfast") "breakfast" (some unnamedBreakfast)
      = used := by
    rw [hu1]
    rfl
  rw [hstep, htr]

/-- The lunch slot of the counterexample run selects nothing and merely
clears its own (already effectively empty) tracker entry. -/
theorem cex_lunch_step (used : RecommendationEngine.Tracker) :
    RecommendationEngine.weekly_slot_step sampleProfile cexMeals cexMeals used "lunch"
      (fun _ => 0)
      = ⟨none, RecommendationEngine.Tracker.update used "lunch" []⟩ := rfl

/-- The dinner slot of the counterexample run selects nothing. -/
theorem cex_dinner_step (used : RecommendationEngine.Tracker) :
    RecommendationEngine.weekly_slot_step sampleProfile cexMeals cexMeals used "dinner"
      (fun _ => 0)
      = ⟨none, RecommendationEngine.Tracker.update used "dinner" []⟩ := rfl

/-- The snack slot of the counterexample run selects nothing. -/
theorem cex_snack_step (used : RecommendationEngine.Tracker) :
    RecommendationEngine.weekly_slot_step sampleProfile cexMeals cexMeals used "snack"
      (fun _ => 0)
      = ⟨none, RecommendationEngine.Tracker.update used "snack" []⟩ := rfl

/-- Unfolding the slot loop when the head step selects a meal. -/
theorem weekly_slots_go_cons_some (profile : UserProfile) (all_meals pool : List Meal)
    (jit : String → Meal → ℚ) (t : String) (ts : List String)
    (used tr : RecommendationEngine.Tracker) (m : Meal)
    (h : RecommendationEngine.weekly_slot_step profile all_meals pool used t (jit t)
      = ⟨some m, tr⟩) :
    RecommendationEngine.weekly_slots_go profile all_meals pool jit (t :: ts) used
      = ((t, m) :: (RecommendationEngine.weekly_slots_go profile all_meals pool jit ts tr).1,
          (RecommendationEngine.weekly_slots_go profile all_meals pool jit ts tr).2) := by
  simp only [RecommendationEngine.weekly_slots_go, h]

/-- Unfolding the slot loop when the head step selects nothing. -/
theorem weekly_slots_go_cons_none (profile : UserProfile) (all_meals pool : List Meal)
    (jit : String → Meal → ℚ) (t : String) (ts : List String)
    (used tr : RecommendationEngine.Tracker)
    (h : RecommendationEngine.weekly_slot_step profile all_meals pool used t (jit t)
      = ⟨none, tr⟩) :
    RecommendationEngine.weekly_slots_go profile all_meals pool jit (t :: ts) used
      = RecommendationEngine.weekly_slots_go profile all_meals pool jit ts tr := by
  simp only [RecommendationEngine.weekly_slots_go, h]

/-- One counterexample day: only breakfast is filled, with the unnamed meal,
and the tracker keeps no breakfast names. -/
theorem cex_go (used : RecommendationEngine.Tracker) :
    RecommendationEngine.weekly_slots_go sampleProfile cexMeals cexMeals (fun _ _ => 0)
      RecommendationEngine.daySlots used
      = ([("breakfast", unnamedBreakfast)],
          RecommendationEngine.Tracker.update
            (RecommendationEngine.Tracker.update
              (RecommendationEngine.Tracker.update used "lunch" []) "dinner" []) "snack" []) := by
  rw [show RecommendationEngine.daySlots
    = "breakfast" :: "lunch" :: "dinner" :: "snack" :: [] from rfl]
  rw [weekly_slots_go_cons_some _ _ _ _ _ _ _ _ _ (cex_breakfast_step used)]
  rw [weekly_slots_go_cons_none _ _ _ _ _ _ _ _ (cex_lunch_step used)]
  rw [weekly_slots_go_cons_none _ _ _ _ _ _ _ _ (cex_dinner_step _)]
  rw [weekly_slots_go_cons_none _ _ _ _ _ _ _ _ (cex_snack_step _)]
  rfl

/-- The plan half of a counterexample day does not depend on the tracker. -/
theorem cex_day_plan (used : RecommendationEngine.Tracker) :
    (RecommendationEngine.weekly_day sampleProfile cexMeals cexMeals (fun _ _ => 0) used).1
      = (RecommendationEngine.weekly_day sampleProfile cexMeals cexMeals (fun _ _ => 0)
          (fun _ => [])).1 := by
  unfold RecommendationEngine.weekly_day
  rw [cex_go, cex_go]

/-- All 7 counterexample days produce the same plan. -/
theorem cex_weekly : ∀ (n day : ℕ) (used : RecommendationEngine.Tracker),
    RecommendationEngine.weekly_go sampleProfile cexMeals cexMeals (fun _ _ _ => 0) n day used
      = List.replicate n
          (RecommendationEngine.weekly_day sampleProfile cexMeals cexMeals (fun _ _ => 0)
            (fun _ => [])).1
  | 0, _, _ => rfl
  | n + 1, day, used => by
    rw [RecommendationEngine.weekly_go_succ, cex_weekly n (day + 1), List.replicate_succ,
      cex_day_plan]

/-- Mapping `filterMap` over a replicated element that maps to `some`. -/
theorem filterMap_replicate_some {α β : Type} (g : α → Option β) (d : α) (e : β)
    (h : g d = some e) : ∀ n, (List.replicate n d).filterMap g = List.replicate n e
  | 0 => rfl
  | n + 1 => by
    rw [List.replicate_succ, List.replicate_succ, List.filterMap_cons, h,
      filterMap_replicate_some g d e h n]

/-- Deduplicating a nonempty replicated list leaves one element. -/
theorem dedup_replicate_succ {α : Type} [DecidableEq α] (e : α) :
    ∀ n, (List.replicate (n + 1) e).dedup = [e]
  | 0 => by simp
  | n + 1 => by
    rw [List.replicate_succ, List.dedup_cons_of_mem (by simp [List.mem_replicate])]
    exact dedup_replicate_succ e n

/-- C6 counterexample: the preference-filtered pool holds two distinct
breakfast meals, yet the whole 7-day run assigns exactly one breakfast
identity — the unnamed meal wins every day because unnamed meals are never
tracked, so the 2-distinct-meals premise does not yield 2 identities. -/
theorem C6_counterexample :
    (RecommendationEngine.filter_meals_by_preference cexMeals sampleProfile.dietary_preference
        sampleProfile.allergies).filter (fun m => decide (m.meal_type = "breakfast"))
      = [unnamedBreakfast, namedBreakfast] ∧
    unnamedBreakfast ≠ namedBreakfast ∧
    ((RecommendationEngine.generate_weekly_meal_plan sampleProfile cexMeals
        (fun _ _ _ => 0)).filterMap (fun d => d.slots.lookup "breakfast")).dedup
      = [RecommendationEngine.mealToEntry unnamedBreakfast] := by
  refine ⟨by decide, by decide, ?_⟩
  have hpool : RecommendationEngine.filter_meals_by_preference cexMeals
      sampleProfile.dietary_preference sampleProfile.allergies = cexMeals := by decide
  have hw : RecommendationEngine.generate_weekly_meal_plan sampleProfile cexMeals
      (fun _ _ _ => 0)
      = List.replicate 7
          (RecommendationEngine.weekly_day sampleProfile cexMeals cexMeals (fun _ _ => 0)
            (fun _ => [])).1 := by
    show RecommendationEngine.weekly_go sampleProfile cexMeals
        (RecommendationEngine.filter_meals_by_preference cexMeals
          sampleProfile.dietary_preference sampleProfile.allergies)
        (fun _ _ _ => 0) 7 0 (fun _ => []) = _
    rw [hpool]
    exact cex_weekly 7 0 _
  have hlk : (RecommendationEngine.weekly_day sampleProfile cexMeals cexMeals (fun _ _ => 0)
      (fun _ => [])).1.slots.lookup "breakfast"
      = some (RecommendationEngine.mealToEntry unnamedBreakfast) := by
    have hslots : (RecommendationEngine.weekly_day sampleProfile cexMeals cexMeals
        (fun _ _ => 0) (fun _ => [])).1.slots
        = [("breakfast", RecommendationEngine.mealToEntry unnamedBreakfast)] := by
      unfold RecommendationEngine.weekly_day
      rw [cex_go]
      simp
    rw [hslots]
    rfl
  rw [hw, filterMap_replicate_some (fun d : DailyPlan => d.slots.lookup "breakfast") _ _ hlk 7,
    show (7 : ℕ) = 6 + 1 from rfl, dedup_replicate_succ]

end Dietitian
